import Mathlib

/-!
Shallow embedding of the registration/login backend (src/index.js):
the `connectDb` connection guard, the mongoose `User` model with its
schema setters (trim on username, trim+lowercase on email) and unique
indexes, the bcrypt hashing collaborator, the jwt signing collaborator,
the `routeHandler` error translator, and the two route handlers
`POST /api/auth/register` and `POST /api/auth/login`.

External collaborators (bcrypt, jwt, the document store) are modelled
as executable Lean functions faithful to the observable behaviour the
handlers rely on; nondeterministic inputs (the random salt, the clock,
connection success, signing success) are passed as explicit parameters.
-/

namespace RegDash

/-- JS falsiness of an optional string field from a JSON body:
`undefined` (absent) and the empty string are falsy. -/
def falsyStr : Option String → Bool
  | none => true
  | some s => s == ""

/-- JS `String.prototype.toLowerCase` (the mongoose `lowercase: true`
setter and the handler's `.toLowerCase()` calls). -/
def lowerStr (s : String) : String :=
  String.mk (s.data.map Char.toLower)

/-- JS `String.prototype.trim` (the mongoose `trim: true` setter):
strip leading and trailing whitespace. -/
def trimStr (s : String) : String :=
  String.mk (((s.data.dropWhile Char.isWhitespace).reverse.dropWhile
    Char.isWhitespace).reverse)

/-- A persisted user document (mongoose `User` model, src/index.js:69-75).
`password` holds the bcrypt hash string. -/
structure UserRecord where
  id : Nat
  username : String
  email : String
  password : String
  deriving Repr, DecidableEq

/-- The document store: the user collection plus the next id the store
will assign on insert. -/
structure Store where
  users : List UserRecord
  nextId : Nat
  deriving Repr, DecidableEq

/-- The sanitized user view returned in response bodies:
exactly id, username, email — the model has no password field at all. -/
structure UserView where
  id : Nat
  username : String
  email : String
  deriving Repr, DecidableEq

/-- A signed token as produced by `jwt.sign(payload, secret, {expiresIn})`:
the claims (user id and username), issued-at, expiry, and the secret
that signed it. -/
structure Jwt where
  userId : Nat
  username : String
  iat : Nat
  exp : Nat
  secret : String
  deriving Repr, DecidableEq

/-- `jwt.sign` (external collaborator): embeds the user id and username
as claims with expiry `expiresInSecs` after issuance. -/
def jwtSign (userId : Nat) (uname : String) (secret : String)
    (expiresInSecs : Nat) (now : Nat) : Jwt :=
  { userId := userId, username := uname, iat := now,
    exp := now + expiresInSecs, secret := secret }

/-- An HTTP JSON response: status code, `message` field, and the
optional `user` and `token` fields of the success bodies. -/
structure HttpResponse where
  status : Nat
  message : String
  user : Option UserView := none
  token : Option Jwt := none
  deriving Repr, DecidableEq

/-- bcrypt (external collaborator, cost factor 10): a salted one-way
hash. The digest is a string `$2b$10$<salt>$<pw-digest>`; the salt is
rendered in unary so the verifier can re-derive it from the stored
string alone, as `bcrypt.compare` does. -/
def bcryptHash (salt : Nat) (pw : String) : String :=
  String.mk ('$' :: '2' :: 'b' :: '$' :: '1' :: '0' :: '$' ::
    (List.replicate salt 's' ++ '$' :: pw.data))

/-- Helper for `bcryptCompare`: skip the salt characters up to the
separator. -/
def stripSaltChars : List Char → Option (List Char)
  | [] => none
  | c :: rest =>
    if c = '$' then some rest
    else if c = 's' then stripSaltChars rest
    else none

/-- `bcrypt.compare(pw, hash)` (external collaborator): re-derives the
digest from the salt stored in the hash and compares. -/
def bcryptCompare (pw h : String) : Bool :=
  match h.data with
  | '$' :: '2' :: 'b' :: '$' :: '1' :: '0' :: '$' :: rest =>
    match stripSaltChars rest with
    | some p => p == pw.data
    | none => false
  | _ => false

/-- The failure categories thrown to `routeHandler`
(src/index.js:88-111): missing `MONGO_URI`, missing `JWT_SECRET`,
connection failure, a duplicate-key error (`error.code === 11000`,
carrying the first key of `error.keyPattern`), or anything else. -/
inductive AppError where
  | mongoUriMissing
  | jwtSecretMissing
  | dbConnectionFailed
  | dupKey (field : String)
  | validationFailed
  | other (msg : String)
  deriving Repr, DecidableEq

/-- `connectDb` (src/index.js:45-63): no-op when already connected;
throws `MONGO_URI_MISSING` when the store address is falsy, before any
connection attempt; otherwise attempts the connection (`connectOk`
models whether `mongoose.connect` succeeds) and throws
`DATABASE_CONNECTION_FAILED` on failure. Returns the new `isConnected`
flag on success. -/
def connectDb (isConnected : Bool) (mongoUri : Option String)
    (connectOk : Bool) : Except AppError Bool :=
  if isConnected then .ok true
  else if falsyStr mongoUri then .error .mongoUriMissing
  else if connectOk then .ok true
  else .error .dbConnectionFailed

/-- `field.charAt(0).toUpperCase() + field.slice(1)`
(src/index.js:106). -/
def capitalizeField (s : String) : String :=
  match s.data with
  | [] => ""
  | c :: rest => String.mk (c.toUpper :: rest)

/-- The catch block of `routeHandler` (src/index.js:88-111): the
deterministic error-to-response translation. A mongoose validation
error matches neither of the two sentinel messages nor
`error.code === 11000`, so it falls through to the generic 500. -/
def handleError : AppError → HttpResponse
  | .mongoUriMissing =>
    { status := 500,
      message := "Server configuration error: Required environment variable is missing." }
  | .jwtSecretMissing =>
    { status := 500,
      message := "Server configuration error: Required environment variable is missing." }
  | .dbConnectionFailed =>
    { status := 503,
      message := "Service temporarily unavailable. Check MongoDB IP Whitelisting." }
  | .dupKey f =>
    { status := 409, message := capitalizeField f ++ " already exists." }
  | .validationFailed =>
    { status := 500, message := "Internal Server Error." }
  | .other _ =>
    { status := 500, message := "Internal Server Error." }

/-- `newUser.save()` on the `User` model: applies the schema setters
(trim on username, trim + lowercase on email, src/index.js:69-73),
then runs the schema's `required: true` validators on the three
fields — a field whose stored value is empty (e.g. whitespace-only
input erased by the trim setter) throws a mongoose validation error —
then the store's unique indexes on email and username fire a
duplicate-key error (code 11000, keyPattern naming the field) as a
backstop; on success the record gets the next id and is appended. -/
def saveUser (st : Store) (uname email passwordHash : String) :
    Except AppError (UserRecord × Store) :=
  let u : UserRecord :=
    { id := st.nextId, username := trimStr uname,
      email := lowerStr (trimStr email), password := passwordHash }
  if u.username == "" || u.email == "" || u.password == "" then
    .error .validationFailed
  else if st.users.any (fun r => r.email == u.email) then
    .error (.dupKey "email")
  else if st.users.any (fun r => r.username == u.username) then
    .error (.dupKey "username")
  else
    .ok (u, { users := st.users ++ [u], nextId := st.nextId + 1 })

/-- The register request body `{username, email, password}`; absent
fields are `none`. -/
structure RegisterReq where
  username : Option String
  email : Option String
  password : Option String
  deriving Repr, DecidableEq

/-- The login request body `{email, password}`. -/
structure LoginReq where
  email : Option String
  password : Option String
  deriving Repr, DecidableEq

/-- The `POST /api/auth/register` handler body (src/index.js:116-151):
validate non-emptiness, query `findOne({$or:[{email},{username}]})`
with the raw request strings, report a 409 naming Email or Username by
case-insensitive comparison of the stored email, else hash and save,
returning 201 with the sanitized view. The duplicate-key error from
`save` propagates to `routeHandler`. -/
def register (req : RegisterReq) (salt : Nat) (st : Store) :
    Except AppError (HttpResponse × Store) :=
  let uname := req.username.getD ""
  let email := req.email.getD ""
  let password := req.password.getD ""
  if falsyStr req.username || falsyStr req.email || falsyStr req.password then
    .ok ({ status := 400, message := "Please provide all required fields." }, st)
  else
    match st.users.find? (fun r => r.email == email || r.username == uname) with
    | some existingUser =>
      let field :=
        if lowerStr existingUser.email == lowerStr email then "Email" else "Username"
      .ok ({ status := 409, message := field ++ " is already taken." }, st)
    | none =>
      let hashedPassword := bcryptHash salt password
      match saveUser st uname email hashedPassword with
      | .error e => .error e
      | .ok (savedUser, st2) =>
        .ok ({ status := 201,
               message := "Registration successful for " ++ savedUser.username
                 ++ ". Please login.",
               user := some { id := savedUser.id, username := savedUser.username,
                              email := savedUser.email } }, st2)

/-- The `POST /api/auth/login` handler body (src/index.js:154-203):
validate non-emptiness, `findOne({email})` with the raw request email
matched exactly against the stored form, verify the password with
bcrypt, throw `JWT_SECRET_MISSING` when the secret is falsy, then sign
a token expiring 3600 seconds after issuance (`expiresIn: '1h'`);
`signOk` models the signing callback's error argument. -/
def login (req : LoginReq) (jwtSecret : Option String) (now : Nat)
    (signOk : Bool) (st : Store) : Except AppError HttpResponse :=
  let email := req.email.getD ""
  let password := req.password.getD ""
  if falsyStr req.email || falsyStr req.password then
    .ok { status := 400, message := "Please provide email and password." }
  else
    match st.users.find? (fun r => r.email == email) with
    | none => .ok { status := 401, message := "Invalid credentials." }
    | some user =>
      if !(bcryptCompare password user.password) then
        .ok { status := 401, message := "Invalid credentials." }
      else if falsyStr jwtSecret then
        .error .jwtSecretMissing
      else if !signOk then
        .ok { status := 500, message := "Token generation failed." }
      else
        .ok { status := 200, message := "Login successful!",
              user := some { id := user.id, username := user.username,
                             email := user.email },
              token := some (jwtSign user.id user.username
                (jwtSecret.getD "") 3600 now) }

/-- The environment configuration read at module load
(src/index.js:40-41). -/
structure Env where
  mongoUri : Option String
  jwtSecret : Option String
  deriving Repr, DecidableEq

/-- `routeHandler` wrapping the register handler (src/index.js:84-112):
ensure the connection, run the handler, translate any thrown error.
Returns the response together with the resulting store state. -/
def routeRegister (env : Env) (isConnected connectOk : Bool)
    (req : RegisterReq) (salt : Nat) (st : Store) : HttpResponse × Store :=
  match connectDb isConnected env.mongoUri connectOk with
  | .error e => (handleError e, st)
  | .ok _ =>
    match register req salt st with
    | .ok r => r
    | .error e => (handleError e, st)

/-- `routeHandler` wrapping the login handler. Login never mutates the
store, so only the response is returned. -/
def routeLogin (env : Env) (isConnected connectOk : Bool)
    (req : LoginReq) (now : Nat) (signOk : Bool) (st : Store) : HttpResponse :=
  match connectDb isConnected env.mongoUri connectOk with
  | .error e => handleError e
  | .ok _ =>
    match login req env.jwtSecret now signOk st with
    | .ok r => r
    | .error e => handleError e

/-! ### Helper lemmas -/

theorem falsyStr_some_ne {s : String} (h : s ≠ "") :
    falsyStr (some s) = false := by
  simp [falsyStr, h]

theorem stripSaltChars_replicate (n : Nat) (l : List Char) :
    stripSaltChars (List.replicate n 's' ++ '$' :: l) = some l := by
  induction n with
  | zero => simp [stripSaltChars]
  | succ k ih => simpa [stripSaltChars, List.replicate_succ] using ih

theorem bcryptCompare_bcryptHash (salt : Nat) (pw : String) :
    bcryptCompare pw (bcryptHash salt pw) = true := by
  simp [bcryptCompare, bcryptHash, stripSaltChars_replicate]

theorem bcryptHash_ne_plaintext (salt : Nat) (pw : String) :
    bcryptHash salt pw ≠ pw := by
  intro h
  have hd := congrArg (fun s => s.data.length) h
  simp [bcryptHash] at hd
  omega

theorem bcryptHash_ne_empty (salt : Nat) (pw : String) :
    bcryptHash salt pw ≠ "" := by
  intro h
  have hd := congrArg String.data h
  simp [bcryptHash] at hd

theorem lowerStr_ne_empty {s : String} (h : s ≠ "") : lowerStr s ≠ "" := by
  intro hc
  apply h
  apply String.ext
  have hd := congrArg String.data hc
  simp only [lowerStr] at hd
  have hnil : s.data.map Char.toLower = [] := hd
  simpa using List.map_eq_nil_iff.mp hnil

/-- Counterexample to claim C1 as stated: a register request whose
three fields are non-empty but whose username is whitespace-only
matches no existing record in the empty store, yet the handler
returns 500 (the trim setter erases the username, the schema's
`required` validator rejects the empty value at save, and
`routeHandler` does not recognize the validation error), not 201. -/
theorem register_whitespace_username_cex :
    falsyStr (some "   ") = false ∧
    (⟨[], 1⟩ : Store).users.find?
      (fun r => r.email == "b@x.com" || r.username == "   ") = none ∧
    (routeRegister ⟨some "mongodb://u", some "sec"⟩ false true
      ⟨some "   ", some "b@x.com", some "pw"⟩ 0 ⟨[], 1⟩).1.status = 500 ∧
    (routeRegister ⟨some "mongodb://u", some "sec"⟩ false true
      ⟨some "   ", some "b@x.com", some "pw"⟩ 0 ⟨[], 1⟩).1.message =
      "Internal Server Error." :=
  ⟨by decide, by decide, by decide, by decide⟩

/-- Claim C1 (amended): a register request with three non-empty fields
whose username and email remain non-empty after trimming, and whose
raw username and email match no existing record (neither by the
handler's raw query nor after the schema's trim/lowercase
normalization), yields 201 with a message and a user view of exactly
id, trimmed username and lowercased trimmed email (the view type has
no password field), and appends exactly one record holding the
trimmed username, the lowercased trimmed email, and a salted hash
that verifies against the plaintext password and never equals it. -/
theorem register_fresh_creates_user
    (env : Env) (ic co : Bool) (u e p : String) (salt : Nat) (st : Store)
    (hconn : connectDb ic env.mongoUri co = .ok true)
    (hu : u ≠ "") (he : e ≠ "") (hp : p ≠ "")
    (htu : trimStr u ≠ "") (hte : trimStr e ≠ "")
    (hfind : st.users.find? (fun r => r.email == e || r.username == u) = none)
    (hemail : ∀ r ∈ st.users, r.email ≠ lowerStr (trimStr e))
    (huname : ∀ r ∈ st.users, r.username ≠ trimStr u) :
    (routeRegister env ic co ⟨some u, some e, some p⟩ salt st).1.status = 201 ∧
    (routeRegister env ic co ⟨some u, some e, some p⟩ salt st).1.message =
      "Registration successful for " ++ trimStr u ++ ". Please login." ∧
    (routeRegister env ic co ⟨some u, some e, some p⟩ salt st).1.user =
      some { id := st.nextId, username := trimStr u,
             email := lowerStr (trimStr e) } ∧
    (routeRegister env ic co ⟨some u, some e, some p⟩ salt st).2.users =
      st.users ++ [{ id := st.nextId, username := trimStr u,
                     email := lowerStr (trimStr e),
                     password := bcryptHash salt p }] ∧
    bcryptCompare p (bcryptHash salt p) = true ∧
    bcryptHash salt p ≠ p := by
  have hae : st.users.any (fun r => r.email == lowerStr (trimStr e)) = false := by
    simp only [List.any_eq_false, beq_iff_eq]
    exact hemail
  have hau : st.users.any (fun r => r.username == trimStr u) = false := by
    simp only [List.any_eq_false, beq_iff_eq]
    exact huname
  refine ⟨?_, ?_, ?_, ?_, bcryptCompare_bcryptHash salt p, bcryptHash_ne_plaintext salt p⟩ <;>
    simp [routeRegister, hconn, register, falsyStr, hu, he, hp, hfind,
      saveUser, hae, hau, htu, lowerStr_ne_empty hte, bcryptHash_ne_empty]

/-- Witness for C1: the spec's concrete scenario — registering alice
with `A@Example.com` into an empty store yields 201 and stores
`a@example.com`. -/
theorem register_fresh_creates_user_witness :
    connectDb false (some "mongodb://u") true = .ok true ∧
    (routeRegister ⟨some "mongodb://u", some "sec"⟩ false true
      ⟨some "alice", some "A@Example.com", some "hunter2"⟩ 3 ⟨[], 1⟩).1.status = 201 ∧
    (routeRegister ⟨some "mongodb://u", some "sec"⟩ false true
      ⟨some "alice", some "A@Example.com", some "hunter2"⟩ 3 ⟨[], 1⟩).2.users =
      [{ id := 1, username := "alice", email := "a@example.com",
         password := bcryptHash 3 "hunter2" }] :=
  ⟨rfl,
   (register_fresh_creates_user ⟨some "mongodb://u", some "sec"⟩ false true
      "alice" "A@Example.com" "hunter2" 3 ⟨[], 1⟩ rfl (by decide) (by decide)
      (by decide) (by decide) (by decide) (by decide) (by simp) (by simp)).1,
   by
    have h := (register_fresh_creates_user ⟨some "mongodb://u", some "sec"⟩ false true
      "alice" "A@Example.com" "hunter2" 3 ⟨[], 1⟩ rfl (by decide) (by decide)
      (by decide) (by decide) (by decide) (by decide) (by simp) (by simp)).2.2.2.1
    have he : lowerStr (trimStr "A@Example.com") = "a@example.com" := by decide
    have hn : trimStr "alice" = "alice" := by decide
    rw [h, he, hn]
    rfl⟩

/-- Claim C2: with the same store, a login whose email matches no
record and a login whose email matches a record but whose password
fails bcrypt verification both yield status 401 with byte-identical
message text, regardless of clock or signing outcome. -/
theorem login_enumeration_resistant
    (env : Env) (ic co : Bool) (e1 p1 e2 p2 : String) (st : Store)
    (now1 now2 : Nat) (s1 s2 : Bool) (u : UserRecord)
    (hconn : connectDb ic env.mongoUri co = .ok true)
    (he1 : e1 ≠ "") (hp1 : p1 ≠ "") (he2 : e2 ≠ "") (hp2 : p2 ≠ "")
    (hfind1 : st.users.find? (fun r => r.email == e1) = none)
    (hfind2 : st.users.find? (fun r => r.email == e2) = some u)
    (hpw : bcryptCompare p2 u.password = false) :
    (routeLogin env ic co ⟨some e1, some p1⟩ now1 s1 st).status = 401 ∧
    (routeLogin env ic co ⟨some e2, some p2⟩ now2 s2 st).status = 401 ∧
    (routeLogin env ic co ⟨some e1, some p1⟩ now1 s1 st).message =
      (routeLogin env ic co ⟨some e2, some p2⟩ now2 s2 st).message := by
  refine ⟨?_, ?_, ?_⟩ <;>
    simp [routeLogin, hconn, login, falsyStr, he1, hp1, he2, hp2,
      hfind1, hfind2, hpw]

/-- Witness for C2: unknown `nobody@x.com` vs. alice with a wrong
password — both 401, same message. -/
theorem login_enumeration_resistant_witness :
    (⟨[⟨1, "alice", "a@example.com", bcryptHash 3 "hunter2"⟩], 2⟩ : Store).users.find?
      (fun r => r.email == "nobody@x.com") = none ∧
    bcryptCompare "wrong" (bcryptHash 3 "hunter2") = false ∧
    (routeLogin ⟨some "mongodb://u", some "sec"⟩ false true
      ⟨some "nobody@x.com", some "pw"⟩ 5 true
      ⟨[⟨1, "alice", "a@example.com", bcryptHash 3 "hunter2"⟩], 2⟩).message =
    (routeLogin ⟨some "mongodb://u", some "sec"⟩ false true
      ⟨some "a@example.com", some "wrong"⟩ 7 true
      ⟨[⟨1, "alice", "a@example.com", bcryptHash 3 "hunter2"⟩], 2⟩).message :=
  ⟨by decide, by decide,
   (login_enumeration_resistant ⟨some "mongodb://u", some "sec"⟩ false true
      "nobody@x.com" "pw" "a@example.com" "wrong"
      ⟨[⟨1, "alice", "a@example.com", bcryptHash 3 "hunter2"⟩], 2⟩ 5 7 true true
      ⟨1, "alice", "a@example.com", bcryptHash 3 "hunter2"⟩
      rfl (by decide) (by decide) (by decide) (by decide)
      (by decide) (by decide) (by decide)).2.2⟩

/-- Claim C3: when the application-level uniqueness query finds an
existing record, the response is 409, naming "Email" exactly when the
existing record's stored email equals the given email
case-insensitively, and "Username" otherwise. -/
theorem register_conflict_field_naming
    (env : Env) (ic co : Bool) (u e p : String) (salt : Nat) (st : Store)
    (ex : UserRecord)
    (hconn : connectDb ic env.mongoUri co = .ok true)
    (hu : u ≠ "") (he : e ≠ "") (hp : p ≠ "")
    (hfind : st.users.find? (fun r => r.email == e || r.username == u) = some ex) :
    (routeRegister env ic co ⟨some u, some e, some p⟩ salt st).1.status = 409 ∧
    (lowerStr ex.email = lowerStr e →
      (routeRegister env ic co ⟨some u, some e, some p⟩ salt st).1.message =
        "Email is already taken.") ∧
    (lowerStr ex.email ≠ lowerStr e →
      (routeRegister env ic co ⟨some u, some e, some p⟩ salt st).1.message =
        "Username is already taken.") := by
  refine ⟨?_, fun hm => ?_, fun hm => ?_⟩
  · simp [routeRegister, hconn, register, falsyStr, hu, he, hp, hfind]
  · simp [routeRegister, hconn, register, falsyStr, hu, he, hp, hfind, hm]
  · simp [routeRegister, hconn, register, falsyStr, hu, he, hp, hfind, hm]

/-- Witness for C3: registering bob with alice's email (different
case) names "Email"; registering alice with a fresh email names
"Username". -/
theorem register_conflict_field_naming_witness :
    (⟨[⟨1, "alice", "a@example.com", bcryptHash 3 "hunter2"⟩], 2⟩ : Store).users.find?
      (fun r => r.email == "a@example.com" || r.username == "bob") =
        some ⟨1, "alice", "a@example.com", bcryptHash 3 "hunter2"⟩ ∧
    (routeRegister ⟨some "mongodb://u", some "sec"⟩ false true
      ⟨some "bob", some "a@example.com", some "pw"⟩ 0
      ⟨[⟨1, "alice", "a@example.com", bcryptHash 3 "hunter2"⟩], 2⟩).1.message =
      "Email is already taken." :=
  ⟨by decide,
   (register_conflict_field_naming ⟨some "mongodb://u", some "sec"⟩ false true
      "bob" "a@example.com" "pw" 0
      ⟨[⟨1, "alice", "a@example.com", bcryptHash 3 "hunter2"⟩], 2⟩
      ⟨1, "alice", "a@example.com", bcryptHash 3 "hunter2"⟩
      rfl (by decide) (by decide) (by decide) (by decide)).2.1 (by decide)⟩

/-- Counterexample to claim C4 as stated: with the store address
present but the token-signing secret absent, `connectDb` succeeds
instead of failing with a configuration error — `connectDb` never
consults the signing secret (a register request even completes with
201 despite the missing secret). -/
theorem connectDb_ignores_jwt_secret_cex :
    (Env.mk (some "mongodb://u") none).jwtSecret = none ∧
    connectDb false (Env.mk (some "mongodb://u") none).mongoUri true =
      .ok true ∧
    (routeRegister (Env.mk (some "mongodb://u") none) false true
      ⟨some "bob", some "b@x.com", some "pw"⟩ 0 ⟨[], 1⟩).1.status = 201 :=
  ⟨rfl, rfl, by decide⟩

/-- Claim C4 (amended): when not yet connected, `connectDb` fails with
the configuration error exactly when the store address is absent, and
it does so regardless of whether the connection attempt would succeed
(the check precedes any attempt); when the address is present, the
outcome is determined by the connection attempt, failing with the
store-unavailable error on a connection error. The token-signing
secret is not checked by `connectDb`; it is checked later, inside the
login handler. -/
theorem connectDb_error_classification (mu : Option String) (co : Bool) :
    (falsyStr mu = true →
      connectDb false mu co = .error AppError.mongoUriMissing) ∧
    (falsyStr mu = false →
      connectDb false mu co =
        if co then .ok true else .error AppError.dbConnectionFailed) := by
  refine ⟨fun h => ?_, fun h => ?_⟩ <;> simp [connectDb, h]

/-- Witness for C4 (amended): a missing address fails with the
configuration error even though the connection would have succeeded;
a present address with a failing connection gives the
store-unavailable error. -/
theorem connectDb_error_classification_witness :
    falsyStr none = true ∧
    connectDb false none true = .error AppError.mongoUriMissing ∧
    falsyStr (some "mongodb://u") = false ∧
    connectDb false (some "mongodb://u") false =
      .error AppError.dbConnectionFailed :=
  ⟨by decide, (connectDb_error_classification none true).1 (by decide),
   by decide,
   by
    have h := (connectDb_error_classification (some "mongodb://u") false).2
      (by decide)
    simpa using h⟩

/-- Claim C5: when the register flow passes the application-level
uniqueness check but the store's unique index fires at save time
(a duplicate key slipping past the raw-string query, e.g. a
mixed-case email), `routeHandler` translates the duplicate-key error
into a 409 whose message names the field with its first letter
capitalized, never the generic 500 response. -/
theorem dup_key_translated_to_conflict
    (env : Env) (ic co : Bool) (u e p : String) (salt : Nat) (st : Store)
    (f : String)
    (hconn : connectDb ic env.mongoUri co = .ok true)
    (hu : u ≠ "") (he : e ≠ "") (hp : p ≠ "")
    (hfind : st.users.find? (fun r => r.email == e || r.username == u) = none)
    (hsave : saveUser st u e (bcryptHash salt p) = .error (.dupKey f)) :
    (routeRegister env ic co ⟨some u, some e, some p⟩ salt st).1.status = 409 ∧
    (routeRegister env ic co ⟨some u, some e, some p⟩ salt st).1.message =
      capitalizeField f ++ " already exists." ∧
    (routeRegister env ic co ⟨some u, some e, some p⟩ salt st).1.status ≠ 500 := by
  refine ⟨?_, ?_, ?_⟩ <;>
    simp [routeRegister, hconn, register, falsyStr, hu, he, hp, hfind,
      hsave, handleError]

/-- Witness for C5: alice holds `a@x.com`; registering bob with
`A@x.com` passes the raw query but trips the email unique index, and
the response is 409 "Email already exists.". -/
theorem dup_key_translated_to_conflict_witness :
    (⟨[⟨1, "alice", "a@x.com", bcryptHash 3 "q"⟩], 2⟩ : Store).users.find?
      (fun r => r.email == "A@x.com" || r.username == "bob") = none ∧
    saveUser ⟨[⟨1, "alice", "a@x.com", bcryptHash 3 "q"⟩], 2⟩ "bob" "A@x.com"
      (bcryptHash 0 "pw") = .error (.dupKey "email") ∧
    (routeRegister ⟨some "mongodb://u", some "sec"⟩ false true
      ⟨some "bob", some "A@x.com", some "pw"⟩ 0
      ⟨[⟨1, "alice", "a@x.com", bcryptHash 3 "q"⟩], 2⟩).1.message =
      "Email already exists." :=
  ⟨by decide, rfl,
   by
    have h := (dup_key_translated_to_conflict ⟨some "mongodb://u", some "sec"⟩
      false true "bob" "A@x.com" "pw" 0
      ⟨[⟨1, "alice", "a@x.com", bcryptHash 3 "q"⟩], 2⟩ "email"
      rfl (by decide) (by decide) (by decide) (by decide) rfl).2.1
    simpa using h⟩

/-- Claim C6: a login with non-empty fields whose email matches a
stored record and whose password verifies against the stored hash,
with the signing secret present and signing succeeding, yields 200
with a token whose claims are the user's id and username, issued at
`now` and expiring exactly 3600 seconds later. -/
theorem login_success_token
    (env : Env) (ic co : Bool) (e p s : String) (now : Nat) (st : Store)
    (user : UserRecord)
    (hconn : connectDb ic env.mongoUri co = .ok true)
    (he : e ≠ "") (hp : p ≠ "")
    (hfind : st.users.find? (fun r => r.email == e) = some user)
    (hpw : bcryptCompare p user.password = true)
    (hsec : env.jwtSecret = some s) (hs : s ≠ "") :
    (routeLogin env ic co ⟨some e, some p⟩ now true st).status = 200 ∧
    (routeLogin env ic co ⟨some e, some p⟩ now true st).token =
      some { userId := user.id, username := user.username, iat := now,
             exp := now + 3600, secret := s } := by
  refine ⟨?_, ?_⟩ <;>
    simp [routeLogin, hconn, login, falsyStr, he, hp, hfind, hpw, hsec, hs,
      jwtSign]

/-- Witness for C6: the spec's concrete scenario — alice logs in with
`a@example.com` / `hunter2` at time 100 and receives a token with her
id and username expiring at 3700. -/
theorem login_success_token_witness :
    bcryptCompare "hunter2" (bcryptHash 3 "hunter2") = true ∧
    (routeLogin ⟨some "mongodb://u", some "sec"⟩ false true
      ⟨some "a@example.com", some "hunter2"⟩ 100 true
      ⟨[⟨1, "alice", "a@example.com", bcryptHash 3 "hunter2"⟩], 2⟩).token =
      some { userId := 1, username := "alice", iat := 100, exp := 3700,
             secret := "sec" } :=
  ⟨by decide,
   (login_success_token ⟨some "mongodb://u", some "sec"⟩ false true
      "a@example.com" "hunter2" "sec" 100
      ⟨[⟨1, "alice", "a@example.com", bcryptHash 3 "hunter2"⟩], 2⟩
      ⟨1, "alice", "a@example.com", bcryptHash 3 "hunter2"⟩
      rfl (by decide) (by decide) (by decide) (by decide) rfl
      (by decide)).2⟩

/-- Claim C7: a login with valid credentials while the signing secret
is unset yields 500 with the generic server-configuration message,
and that message is exactly the one produced for a missing store
address, so the response does not reveal which variable is missing. -/
theorem login_missing_secret_config_error
    (env : Env) (ic co : Bool) (e p : String) (now : Nat) (signOk : Bool)
    (st : Store) (user : UserRecord)
    (hconn : connectDb ic env.mongoUri co = .ok true)
    (he : e ≠ "") (hp : p ≠ "")
    (hfind : st.users.find? (fun r => r.email == e) = some user)
    (hpw : bcryptCompare p user.password = true)
    (hsec : falsyStr env.jwtSecret = true) :
    (routeLogin env ic co ⟨some e, some p⟩ now signOk st).status = 500 ∧
    (routeLogin env ic co ⟨some e, some p⟩ now signOk st).message =
      "Server configuration error: Required environment variable is missing." ∧
    (routeLogin env ic co ⟨some e, some p⟩ now signOk st).message =
      (handleError AppError.mongoUriMissing).message := by
  refine ⟨?_, ?_, ?_⟩ <;>
    simp [routeLogin, hconn, login, falsyStr_some_ne he, falsyStr_some_ne hp,
      hfind, hpw, hsec, handleError]

/-- Witness for C7: alice's valid login with `JWT_SECRET` unset gives
the 500 configuration message. -/
theorem login_missing_secret_config_error_witness :
    falsyStr (Env.mk (some "mongodb://u") none).jwtSecret = true ∧
    (routeLogin ⟨some "mongodb://u", none⟩ false true
      ⟨some "a@example.com", some "hunter2"⟩ 0 true
      ⟨[⟨1, "alice", "a@example.com", bcryptHash 3 "hunter2"⟩], 2⟩).status = 500 :=
  ⟨by decide,
   (login_missing_secret_config_error ⟨some "mongodb://u", none⟩ false true
      "a@example.com" "hunter2" 0 true
      ⟨[⟨1, "alice", "a@example.com", bcryptHash 3 "hunter2"⟩], 2⟩
      ⟨1, "alice", "a@example.com", bcryptHash 3 "hunter2"⟩
      rfl (by decide) (by decide) (by decide) (by decide) (by decide)).1⟩

/-- Every failure of `saveUser` is either the required-validator error
or a duplicate-key error from one of the unique indexes. -/
theorem saveUser_error_cases (st : Store) (u e h : String) (x : AppError)
    (hx : saveUser st u e h = .error x) :
    x = AppError.validationFailed ∨ ∃ f, x = AppError.dupKey f := by
  simp only [saveUser] at hx
  split at hx
  · cases hx
    exact Or.inl rfl
  · split at hx
    · cases hx
      exact Or.inr ⟨"email", rfl⟩
    · split at hx
      · cases hx
        exact Or.inr ⟨"username", rfl⟩
      · exact absurd hx (by simp)

/-- Claim C8: a register request yields 400 exactly when at least one
of the three fields is absent or empty (covering all 8 non-full
combinations and excluding any other validation cause), and in that
case the message is the generic missing-fields one. -/
theorem register_validation_400_iff_missing_field
    (env : Env) (ic co : Bool) (req : RegisterReq) (salt : Nat) (st : Store)
    (hconn : connectDb ic env.mongoUri co = .ok true) :
    ((routeRegister env ic co req salt st).1.status = 400 ↔
      (falsyStr req.username || falsyStr req.email || falsyStr req.password)
        = true) ∧
    ((falsyStr req.username || falsyStr req.email || falsyStr req.password)
        = true →
      (routeRegister env ic co req salt st).1.message =
        "Please provide all required fields.") := by
  by_cases hval :
      (falsyStr req.username || falsyStr req.email || falsyStr req.password)
        = true
  · refine ⟨?_, fun _ => ?_⟩ <;> simp [routeRegister, hconn, register, hval]
  · have hval2 :
        (falsyStr req.username || falsyStr req.email || falsyStr req.password)
          = false := by simpa using hval
    refine ⟨?_, fun hcontra => ?_⟩
    · rw [hval2]
      simp only [Bool.false_eq_true, iff_false]
      cases hfind : st.users.find? (fun r => r.email == req.email.getD "" ||
          r.username == req.username.getD "") with
      | some ex => simp [routeRegister, hconn, register, hval2, hfind]
      | none =>
        rcases hsv : saveUser st (req.username.getD "") (req.email.getD "")
            (bcryptHash salt (req.password.getD "")) with x | pr
        · rcases saveUser_error_cases _ _ _ _ _ hsv with rfl | ⟨f, rfl⟩ <;>
            simp [routeRegister, hconn, register, hval2, hfind, hsv, handleError]
        · simp [routeRegister, hconn, register, hval2, hfind, hsv]
    · rw [hcontra] at hval2
      exact absurd hval2 (by simp)

/-- Witness for C8: the all-empty request yields 400 with the
missing-fields message, and a full request does not yield 400. -/
theorem register_validation_400_iff_missing_field_witness :
    (falsyStr (some "") || falsyStr none || falsyStr (some "pw")) = true ∧
    (routeRegister ⟨some "mongodb://u", some "sec"⟩ false true
      ⟨some "", none, some "pw"⟩ 0 ⟨[], 1⟩).1.message =
      "Please provide all required fields." ∧
    ¬ (routeRegister ⟨some "mongodb://u", some "sec"⟩ false true
      ⟨some "bob", some "b@x.com", some "pw"⟩ 0 ⟨[], 1⟩).1.status = 400 :=
  ⟨by decide,
   (register_validation_400_iff_missing_field ⟨some "mongodb://u", some "sec"⟩
      false true ⟨some "", none, some "pw"⟩ 0 ⟨[], 1⟩ rfl).2 (by decide),
   fun hc =>
    absurd ((register_validation_400_iff_missing_field
      ⟨some "mongodb://u", some "sec"⟩ false true
      ⟨some "bob", some "b@x.com", some "pw"⟩ 0 ⟨[], 1⟩ rfl).1.mp hc)
      (by decide)⟩

/-- Claim C9: when every stored email is lowercase and the request
email contains an uppercase letter (so it differs from its lowercased
form, in particular from the record stored for it at registration),
login yields 401 with the invalid-credentials message even though the
password verifies against that record's hash — the lookup matches the
raw request email exactly against the stored lowercased value. -/
theorem login_mixed_case_email_rejected
    (env : Env) (ic co : Bool) (e p : String) (now : Nat) (signOk : Bool)
    (st : Store) (r : UserRecord)
    (hconn : connectDb ic env.mongoUri co = .ok true)
    (he : e ≠ "") (hp : p ≠ "")
    (hmem : r ∈ st.users) (hstored : r.email = lowerStr e)
    (hmixed : lowerStr e ≠ e)
    (hlower : ∀ r2 ∈ st.users, lowerStr r2.email = r2.email)
    (hpw : bcryptCompare p r.password = true) :
    (routeLogin env ic co ⟨some e, some p⟩ now signOk st).status = 401 ∧
    (routeLogin env ic co ⟨some e, some p⟩ now signOk st).message =
      "Invalid credentials." := by
  have hfind : st.users.find? (fun x => x.email == e) = none := by
    rw [List.find?_eq_none]
    intro x hx
    simp only [beq_iff_eq]
    intro hxe
    exact hmixed (by rw [← hxe]; exact hlower x hx)
  refine ⟨?_, ?_⟩ <;>
    simp [routeLogin, hconn, login, falsyStr_some_ne he, falsyStr_some_ne hp,
      hfind]

/-- Witness for C9: alice registered with `A@Example.com` (stored as
`a@example.com`); logging in with the original `A@Example.com` and the
correct password `hunter2` yields 401. -/
theorem login_mixed_case_email_rejected_witness :
    ("a@example.com" : String) = lowerStr "A@Example.com" ∧
    bcryptCompare "hunter2" (bcryptHash 3 "hunter2") = true ∧
    (routeLogin ⟨some "mongodb://u", some "sec"⟩ false true
      ⟨some "A@Example.com", some "hunter2"⟩ 0 true
      ⟨[⟨1, "alice", "a@example.com", bcryptHash 3 "hunter2"⟩], 2⟩).status
      = 401 :=
  ⟨by decide, by decide,
   (login_mixed_case_email_rejected ⟨some "mongodb://u", some "sec"⟩ false true
      "A@Example.com" "hunter2" 0 true
      ⟨[⟨1, "alice", "a@example.com", bcryptHash 3 "hunter2"⟩], 2⟩
      ⟨1, "alice", "a@example.com", bcryptHash 3 "hunter2"⟩
      rfl (by decide) (by decide) (by decide) (by decide) (by decide)
      (by decide) (by decide)).1⟩

/-- Claim C10: a register request that fails validation (400) or the
application-level uniqueness check (409) leaves the store unchanged —
no record is created or modified, the save being unreachable. -/
theorem register_failure_preserves_store
    (env : Env) (ic co : Bool) (req : RegisterReq) (salt : Nat) (st : Store)
    (hconn : connectDb ic env.mongoUri co = .ok true)
    (h : (falsyStr req.username || falsyStr req.email || falsyStr req.password)
        = true ∨
      ∃ ex, st.users.find? (fun r => r.email == req.email.getD "" ||
        r.username == req.username.getD "") = some ex) :
    (routeRegister env ic co req salt st).2 = st ∧
    ((routeRegister env ic co req salt st).1.status = 400 ∨
     (routeRegister env ic co req salt st).1.status = 409) := by
  rcases h with hval | ⟨ex, hfind⟩
  · refine ⟨?_, Or.inl ?_⟩ <;> simp [routeRegister, hconn, register, hval]
  · by_cases hval :
        (falsyStr req.username || falsyStr req.email || falsyStr req.password)
          = true
    · refine ⟨?_, Or.inl ?_⟩ <;> simp [routeRegister, hconn, register, hval]
    · have hval2 :
          (falsyStr req.username || falsyStr req.email || falsyStr req.password)
            = false := by simpa using hval
      refine ⟨?_, Or.inr ?_⟩ <;>
        simp [routeRegister, hconn, register, hval2, hfind]

/-- Witness for C10: registering bob with alice's email leaves the
store exactly as it was. -/
theorem register_failure_preserves_store_witness :
    (⟨[⟨1, "alice", "a@example.com", bcryptHash 3 "hunter2"⟩], 2⟩ : Store).users.find?
      (fun r => r.email == "a@example.com" || r.username == "bob") =
        some ⟨1, "alice", "a@example.com", bcryptHash 3 "hunter2"⟩ ∧
    (routeRegister ⟨some "mongodb://u", some "sec"⟩ false true
      ⟨some "bob", some "a@example.com", some "pw"⟩ 0
      ⟨[⟨1, "alice", "a@example.com", bcryptHash 3 "hunter2"⟩], 2⟩).2 =
      ⟨[⟨1, "alice", "a@example.com", bcryptHash 3 "hunter2"⟩], 2⟩ :=
  ⟨by decide,
   (register_failure_preserves_store ⟨some "mongodb://u", some "sec"⟩ false true
      ⟨some "bob", some "a@example.com", some "pw"⟩ 0
      ⟨[⟨1, "alice", "a@example.com", bcryptHash 3 "hunter2"⟩], 2⟩ rfl
      (Or.inr ⟨⟨1, "alice", "a@example.com", bcryptHash 3 "hunter2"⟩,
        by decide⟩)).1⟩

end RegDash
